import Mathlib

/-!
Shallow embedding of the samsung_2.0 repository (FastAPI service orchestrating
per-TV device scripts over the Samsung WebSocket remote-control protocol).

Embedded source files:
  * `app/services/tv_service.py` — dispatcher (`run_single_tv`), orchestrator
    (`execute_script`, `concurrent_pair_tvs`), `_load_tokens`.
  * `scripts/control_tv.py` — `validate_key_command`, `control_tv`, `load_tokens`.
  * `scripts/power_status.py` — `check_power_status` and its two helpers.
  * `scripts/get_tv_info.py` — `get_comprehensive_tv_info`,
    `get_current_input_raw_ws`, `get_available_apps_raw_ws`,
    `persist_token_update`.
  * `scripts/pair_tv.py` — `save_token`.

Environment-dependent effects (network sends, subprocess completion order,
frames received on a socket) are passed in as explicit parameters; machine
state that the code reads (token file, device registry) is explicit data.
-/

namespace Samsung

/-! ## A minimal model of Python JSON values

`json.loads` produces nested dicts/lists/strings/numbers/bools/None.  Dicts
keep insertion order (Python 3.7+); we model them as association lists. -/

inductive JVal where
  | null : JVal
  | str : String → JVal
  | bool : Bool → JVal
  | num : Int → JVal
  | obj : List (String × JVal) → JVal
  | arr : List JVal → JVal
deriving Repr

-- Structural equality on JSON values (Python `==` on parsed JSON).
mutual

def JVal.beq : JVal → JVal → Bool
  | JVal.null, JVal.null => true
  | JVal.str a, JVal.str b => a == b
  | JVal.bool a, JVal.bool b => a == b
  | JVal.num a, JVal.num b => a == b
  | JVal.obj a, JVal.obj b => JVal.beqFields a b
  | JVal.arr a, JVal.arr b => JVal.beqItems a b
  | _, _ => false

def JVal.beqFields : List (String × JVal) → List (String × JVal) → Bool
  | [], [] => true
  | (k₁, v₁) :: t₁, (k₂, v₂) :: t₂ => k₁ == k₂ && JVal.beq v₁ v₂ && JVal.beqFields t₁ t₂
  | _, _ => false

def JVal.beqItems : List JVal → List JVal → Bool
  | [], [] => true
  | v₁ :: t₁, v₂ :: t₂ => JVal.beq v₁ v₂ && JVal.beqItems t₁ t₂
  | _, _ => false

end

instance : BEq JVal := ⟨JVal.beq⟩

/-- Python `d.get(k)` on a dict (returns `None`, modelled `none`, when the key
is absent or the value is not a dict). -/
def jget : JVal → String → Option JVal
  | JVal.obj fields, k => (fields.find? (fun p => p.1 == k)).map Prod.snd
  | _, _ => none

/-- Python truthiness of a JSON value (`bool(v)`). -/
def jTruthy : JVal → Bool
  | JVal.null => false
  | JVal.str s => s != ""
  | JVal.bool b => b
  | JVal.num n => n != 0
  | JVal.obj fields => !fields.isEmpty
  | JVal.arr items => !items.isEmpty

/-- Python `a or b` over two optional JSON values (`dict.get` results):
returns the first operand when it is present and truthy, else the second. -/
def jOr (a b : Option JVal) : Option JVal :=
  match a with
  | some v => if jTruthy v then some v else b
  | none => b

/-- Truthiness of an optional value (`None` is falsy). -/
def jTruthyOpt : Option JVal → Bool
  | some v => jTruthy v
  | none => false

/-- Python `str.startswith(pre)`. -/
def startswith (s pre : String) : Bool :=
  pre.data.isPrefixOf s.data

/-- ASCII lower-casing of one character. -/
def charLower (c : Char) : Char :=
  if 'A' ≤ c && c ≤ 'Z' then Char.ofNat (c.toNat + 32) else c

/-- Python `str.lower()` (ASCII; the vendor `PowerState` values are ASCII). -/
def strLower (s : String) : String :=
  ⟨s.data.map charLower⟩

/-- `pat` occurs in `s` at some position. -/
def listContainsSub (s pat : List Char) : Bool :=
  match s with
  | [] => pat.isEmpty
  | _ :: t => pat.isPrefixOf s || listContainsSub t pat

/-- Python `pat in s` (substring containment test). -/
def strContains (s pat : String) : Bool :=
  listContainsSub s.data pat.data

/-! ## Token Store

`tokens.json` is a JSON object keyed by tv id whose entries hold a `token`
string and (when written by pairing) a `paired_at` timestamp.  We model it as
an insertion-ordered association list, like a Python dict. -/

structure TokenEntry where
  token : Option String
  paired_at : Option String
deriving Repr, DecidableEq

def TokenStore := List (String × TokenEntry)

instance : DecidableEq TokenStore := by
  unfold TokenStore
  infer_instance

/-- Python dict lookup `store.get(tv_id)`. -/
def storeGet (store : TokenStore) (tv_id : String) : Option TokenEntry :=
  (store.find? (fun p => p.1 == tv_id)).map Prod.snd

/-- Python dict assignment `store[tv_id] = entry`: replaces the entry in place
when the key exists, else appends (insertion order preserved). -/
def storeSet (store : TokenStore) (tv_id : String) (entry : TokenEntry) : TokenStore :=
  match store with
  | [] => [(tv_id, entry)]
  | (k, v) :: rest =>
    if k == tv_id then (k, entry) :: rest
    else (k, v) :: storeSet rest tv_id entry

/-- `tokens.get(tv['id'], {}).get('token')` followed by Python truthiness:
the stored token, when present and non-empty.  Used by `control_tv.py:99-104`,
`power_status.py:114-118` and `get_tv_info.py:31-36`. -/
def truthyToken (store : TokenStore) (tv_id : String) : Option String :=
  match storeGet store tv_id with
  | some entry =>
    match entry.token with
    | some t => if t != "" then some t else none
    | none => none
  | none => none

/-! ### Loading the store (`_load_tokens` / `load_tokens`)

Both `TVService._load_tokens` (tv_service.py:336-344) and
`control_tv.load_tokens` (control_tv.py:28-35) are
`try: json.load(open(path)) except (FileNotFoundError, json.JSONDecodeError): return {}`.
The possible outcomes of `open` + `json.load` are: the file is missing
(`FileNotFoundError`), present but not valid JSON (`JSONDecodeError`),
readable and valid, or some other I/O error (e.g. `PermissionError`), which
this `except` clause does not catch. -/

inductive TokenFile where
  | missing : TokenFile
  | invalidJson : TokenFile
  | otherIoError : String → TokenFile
  | valid : TokenStore → TokenFile

/-- `TVService._load_tokens` (tv_service.py:336-344): `.error` models an
uncaught exception propagating to the caller. -/
def load_tokens : TokenFile → Except String TokenStore
  | TokenFile.missing => Except.ok []
  | TokenFile.invalidJson => Except.ok []
  | TokenFile.otherIoError e => Except.error e
  | TokenFile.valid store => Except.ok store

/-- `control_tv.load_tokens` (control_tv.py:28-35): textually the same
try/except as `TVService._load_tokens`. -/
def control_load_tokens : TokenFile → Except String TokenStore :=
  load_tokens

/-! ### Writing the store -/

/-- One file-system write step performed by a token-persisting function.
`write p` is a direct `open(p, 'w')` + `json.dump` (truncates `p` first, so a
crash mid-write leaves `p` partial); `replace src dst` is the atomic
`Path(src).replace(dst)`. -/
inductive WriteOp where
  | write : String → WriteOp
  | replace : String → String → WriteOp
deriving Repr, DecidableEq

def tokensPath : String := "tokens.json"

/-- `tokens_path.with_suffix('.json.tmp')` on `tokens.json`. -/
def tokensTmpPath : String := "tokens.json.tmp"

/-- A write trace updates the store file atomically when the store path is
only ever the destination of a `replace`, never directly written. -/
def atomicForStore (trace : List WriteOp) : Bool :=
  trace.all fun op =>
    match op with
    | WriteOp.write p => p != tokensPath
    | WriteOp.replace _ _ => true

/-- `save_token` (pair_tv.py:41-50): re-reads the store, overwrites the whole
entry for `tv_id` with a fresh `{token, paired_at}`, and dumps the result with
a single direct `open(tokens_path, 'w')`.  Returns the new store contents and
the file-system write trace. -/
def save_token (store : TokenStore) (tv_id token paired_at : String) :
    TokenStore × List WriteOp :=
  (storeSet store tv_id ⟨some token, some paired_at⟩, [WriteOp.write tokensPath])

/-- Which step of `persist_token_update`'s temp-then-replace block raises, if
any (the `try` at get_tv_info.py:163-171). -/
inductive PersistFailure where
  | noFailure : PersistFailure
  | tmpOpenRaises : PersistFailure
  | replaceRaises : PersistFailure
deriving Repr, DecidableEq

/-- `persist_token_update` (get_tv_info.py:144-171): merges `new_token` into
the existing entry for `tv_id` (keeping `paired_at`), writes a temp file and
replaces the store file with it; if opening the temp file or the replace
raises, the `except` falls back to a direct write of the store file. -/
def persist_token_update (store : TokenStore) (tv_id new_token : String)
    (failure : PersistFailure) : TokenStore × List WriteOp :=
  let entry := (storeGet store tv_id).getD ⟨none, none⟩
  let updated := storeSet store tv_id { entry with token := some new_token }
  match failure with
  | PersistFailure.noFailure =>
    (updated, [WriteOp.write tokensTmpPath, WriteOp.replace tokensTmpPath tokensPath])
  | PersistFailure.tmpOpenRaises =>
    (updated, [WriteOp.write tokensPath])
  | PersistFailure.replaceRaises =>
    (updated, [WriteOp.write tokensTmpPath, WriteOp.write tokensPath])

/-! ## Power State Inferencer (`scripts/power_status.py`) -/

/-- Environment of the tier-1 protocol query inside
`get_websocket_power_state` (power_status.py:73-87):
`connects` — the `safe_call` wrapper neither raised nor timed out (open,
`rest_device_info`, close all succeeded within 6s);
`hasDevice` — `device_info` is truthy and contains the key `'device'`;
`powerState` — the `'PowerState'` field of `device_info['device']`, when
present. -/
structure WSQuery where
  connects : Bool
  hasDevice : Bool
  powerState : Option String
deriving Repr, DecidableEq

/-- Inner `get_power_state` closure (power_status.py:75-84): when the payload
has a `'device'` dict, `device_info['device'].get('PowerState', 'unknown')`
lower-cased; otherwise `None`. -/
def get_power_state (q : WSQuery) : Option String :=
  if q.hasDevice then some (strLower (q.powerState.getD "unknown")) else none

/-- `get_websocket_power_state` (power_status.py:73-87): `safe_call` maps a
raise/timeout to `None`; then `return result if result else None` maps a falsy
(empty) string to `None`. -/
def get_websocket_power_state (q : WSQuery) : Option String :=
  let result := if q.connects then get_power_state q else none
  match result with
  | some s => if s != "" then some s else none
  | none => none

/-- `check_power_status` (power_status.py:102-130).  `pingOk` is the result of
`check_ping` (power_status.py:89-100).  Returns the printed state together
with the number of reachability probes sent. -/
def check_power_status (store : TokenStore) (tv_id : String) (q : WSQuery)
    (pingOk : Bool) : String × Nat :=
  let token := truthyToken store tv_id
  let power_state := if token.isSome then get_websocket_power_state q else none
  match power_state with
  | some s => (s, 0)
  | none => if pingOk then ("standby", 1) else ("sleep", 1)

/-! ## Key-send (`scripts/control_tv.py`) -/

/-- The allow-list of `validate_key_command` (control_tv.py:71-90). -/
def valid_keys : List String :=
  ["KEY_POWER", "KEY_POWEROFF",
   "KEY_VOLUP", "KEY_VOLDOWN", "KEY_MUTE",
   "KEY_CHUP", "KEY_CHDOWN",
   "KEY_UP", "KEY_DOWN", "KEY_LEFT", "KEY_RIGHT",
   "KEY_ENTER", "KEY_RETURN",
   "KEY_MENU", "KEY_HOME", "KEY_GUIDE", "KEY_INFO",
   "KEY_0", "KEY_1", "KEY_2", "KEY_3", "KEY_4",
   "KEY_5", "KEY_6", "KEY_7", "KEY_8", "KEY_9",
   "KEY_NETFLIX", "KEY_AMAZON", "KEY_APPS",
   "KEY_PLAY", "KEY_PAUSE", "KEY_STOP", "KEY_REWIND", "KEY_FF"]

/-- `validate_key_command` (control_tv.py:68-93):
`command.startswith("KEY_") or command in valid_keys`. -/
def validate_key_command (command : String) : Bool :=
  startswith command "KEY_" || valid_keys.contains command

/-- What the network portion of `execute_control` (control_tv.py:110-140)
does once the token and command checks have passed: the open/send/close
sequence returns, raises, or hangs past the 8s bound. -/
inductive NetExec where
  | returns : NetExec
  | raises : String → NetExec
  | hangs : NetExec
deriving Repr, DecidableEq

/-- Outcome of the `execute_control` closure (control_tv.py:97-140) as
observed by `safe_control_with_timeout`: the token guard raises
`no_token_available`, the command guard raises `invalid_key_command: ...`,
then the network part behaves as `net`. -/
def execute_control (store : TokenStore) (tv_id command : String)
    (net : NetExec) : NetExec :=
  match truthyToken store tv_id with
  | none => NetExec.raises "no_token_available"
  | some _ =>
    if !validate_key_command command then
      NetExec.raises ("invalid_key_command: " ++ command)
    else net

/-- `safe_control_with_timeout` (control_tv.py:44-66): a hang reports
`(False, "timeout")`, a raise reports `(False, str(e))`, a normal return
reports `(True, None)`. -/
def safe_control_with_timeout : NetExec → Bool × Option String
  | NetExec.hangs => (false, some "timeout")
  | NetExec.raises e => (false, some e)
  | NetExec.returns => (true, none)

/-- `control_tv` (control_tv.py:95-155): classifies the
`safe_control_with_timeout` result into
`connection_timeout` / `no_token` / `invalid_command` / `connection_failed`
(the `in str(error)` tests are substring tests). -/
def control_tv (store : TokenStore) (tv_id command : String) (net : NetExec) :
    Bool × String :=
  let result := safe_control_with_timeout (execute_control store tv_id command net)
  let success := result.1
  let error := result.2
  if !success then
    let errStr := error.getD "None"
    if error == some "timeout" then (false, "connection_timeout")
    else if strContains errStr "no_token_available" then (false, "no_token")
    else if strContains errStr "invalid_key_command" then (false, "invalid_command")
    else (false, "connection_failed")
  else (true, "success")

/-! ## Python local-name scoping

Two functions in this repository read a local name before the statement that
binds it.  CPython's scoping rule: a name assigned anywhere in a function body
(by `=` or by `def`) is local to that whole body, and reading it before the
binding statement has executed raises `UnboundLocalError`.  We model a
function body as the sequence of its name-binding statements, name-reading
steps and externally visible calls, and execute it under that rule. -/

inductive PyError where
  | unboundLocal : String → PyError
  | other : String → PyError
deriving Repr, DecidableEq

/-- `str(e)` for the errors we model (CPython ≤3.10 wording; the exact text is
irrelevant to every theorem below). -/
def pyErrMsg : PyError → String
  | PyError.unboundLocal n => "local variable " ++ n ++ " referenced before assignment"
  | PyError.other m => m

inductive Stmt where
  | assign : String → Stmt
  | readName : String → Stmt
  | callPersist : Stmt
  | callSubprocess : Stmt
deriving Repr, DecidableEq

/-- The local names of a body: every name some statement assigns. -/
def localNames (body : List Stmt) : List String :=
  body.filterMap fun s =>
    match s with
    | Stmt.assign x => some x
    | _ => none

structure PyState where
  bound : List String
  persistCalls : Nat
  subprocessCalls : Nat
deriving Repr, DecidableEq

def initPyState : PyState := ⟨[], 0, 0⟩

/-- Execute a body prefix until it completes or raises.  `lcls` is the set of
names local to the whole body; reading a local name that is not yet bound
raises `UnboundLocalError` (reading a non-local name resolves globally and
succeeds). -/
def runStmts (lcls : List String) : List Stmt → PyState → PyState × Option PyError
  | [], st => (st, none)
  | Stmt.assign x :: rest, st =>
    runStmts lcls rest { st with bound := st.bound ++ [x] }
  | Stmt.readName x :: rest, st =>
    if lcls.contains x && !st.bound.contains x then
      (st, some (PyError.unboundLocal x))
    else runStmts lcls rest st
  | Stmt.callPersist :: rest, st =>
    runStmts lcls rest { st with persistCalls := st.persistCalls + 1 }
  | Stmt.callSubprocess :: rest, st =>
    runStmts lcls rest { st with subprocessCalls := st.subprocessCalls + 1 }

/-- The body of `get_comprehensive_tv_info` (get_tv_info.py:29-122), one entry
per statement in source order.  `callPersist` marks the points where a
token-rotation callback invoked inside the two raw-WebSocket queries would
reach `persist_token_update`.  The keyword argument `on_new_token=on_new_token`
of the `get_available_apps_raw_ws` call (line 79) reads the local name
`on_new_token`, which is bound only by the `def` at line 91. -/
def infoBody : List Stmt :=
  [Stmt.readName "load_tokens", Stmt.assign "tokens",            -- line 31
   Stmt.assign "token_data",                                     -- line 32
   Stmt.assign "token",                                          -- line 33
   Stmt.assign "client_name",                                    -- line 38
   Stmt.readName "is_tv_online",                                 -- line 41
   Stmt.readName "SamsungTVWS", Stmt.assign "samsung_tv",        -- lines 43-49
   Stmt.assign "tv_info",                                        -- lines 55-60
   Stmt.assign "device_info",                                    -- line 65 (inner try)
   Stmt.readName "get_available_apps_raw_ws",                    -- line 74
   Stmt.readName "client_name",                                  -- line 78
   Stmt.readName "on_new_token",                                 -- line 79: argument evaluation
   Stmt.callPersist, Stmt.assign "apps",                         -- lines 74-81: the call itself
   Stmt.assign "on_new_token",                                   -- line 91: def on_new_token
   Stmt.readName "on_new_token",                                 -- line 100
   Stmt.callPersist, Stmt.assign "current_input"]                -- lines 95-101

/-- The try-block body of `run_single_tv` (tv_service.py:240-272) after the
registry check has passed.  Line 253 reads `python_path`, which line 254
assigns — making `python_path` local to `run_single_tv`, unlike the enclosing
`execute_script` binding at line 229. -/
def runSingleBody : List Stmt :=
  [Stmt.readName "python_path",                                  -- line 253
   Stmt.assign "python_path",                                    -- line 254
   Stmt.assign "cmd_args",                                       -- line 256
   Stmt.callSubprocess, Stmt.assign "result"]                    -- lines 257-263

/-! ## The comprehensive info query (`scripts/get_tv_info.py:29-122`)

Observable behaviour of `get_comprehensive_tv_info`: the `no_token` and
`tv_offline` guards, then the try-block whose execution is `infoBody` — a
raise of `UnboundLocalError "on_new_token"` is caught by the `except` at line
117 and reported as `websocket_error: ...`.  `openFail` models
`samsung_tv.open()` raising first (line 52).  `ackTokenField` is the token
field carried by the connect-handshake ack of the raw-WebSocket queries; the
`on_new_token` callback (lines 91-93) persists it only when it is truthy and
differs from the stored token, and only at the body's `callPersist` points.
The returned store is the token store after the call. -/
def get_comprehensive_tv_info (store : TokenStore) (tv_id : String)
    (online : Bool) (openFail : Option String) (ackTokenField : Option String) :
    String × TokenStore :=
  match truthyToken store tv_id with
  | none => ("no_token", store)
  | some token =>
    if !online then ("tv_offline", store)
    else
      let storeAfter := fun (st : PyState) =>
        if st.persistCalls == 0 then store
        else
          match ackTokenField with
          | some newTok =>
            if newTok != "" && newTok != token then
              (persist_token_update store tv_id newTok PersistFailure.noFailure).1
            else store
          | none => store
      match openFail with
      | some e => ("websocket_error: " ++ e, store)
      | none =>
        match runStmts (localNames infoBody) infoBody initPyState with
        | (st, some e) => ("websocket_error: " ++ pyErrMsg e, storeAfter st)
        | (st, none) => ("json_info", storeAfter st)

/-! ## Raw WebSocket queries (`scripts/get_tv_info.py:204-341, 386-500`)

Both queries share the shape: connect, send `ms.channel.connect`, read one ack
frame with a 2s timeout, optionally capture a rotated token, emit a fixed list
of candidate events, then listen within a bounded window.  The environment is:
whether `websocket.create_connection` succeeded, the ack read, and the frames
received while listening (the end of the list models the window elapsing or a
receive error, both of which break the loop). -/

/-- Result of `ws.recv()` + `json.loads(raw_ack)` for the ack frame. -/
inductive AckRecv where
  | recvRaises : AckRecv
  | parseRaises : AckRecv
  | val : JVal → AckRecv
deriving Repr

/-- What one run of a raw-WebSocket query did: the candidate query events
emitted on the socket, the tokens handed to the `on_new_token` callback, and
the value returned. -/
structure WSRun (α : Type) where
  emitted : List String
  rotatedTokens : List JVal
  result : α
deriving Repr

/-- The candidate events of `get_current_input_raw_ws`
(get_tv_info.py:262-269). -/
def eventsCurrentInput : List String :=
  ["ed.apps.getForegroundApp",
   "ed.launcher.get_running_app",
   "ed.launcher.app.getRunningApp",
   "ed.getRunningApp",
   "ed.installedApp.getRunning",
   "ed.apps.getRunning"]

/-- The candidate events of `get_available_apps_raw_ws`
(get_tv_info.py:437-443). -/
def eventsAppsList : List String :=
  ["ed.installedApp.get",
   "ed.installedApp.getList",
   "ed.apps.getList",
   "ed.apps.getInstalled",
   "ed.launcher.get_app_list"]

/-- Token extraction from a dict ack (get_tv_info.py:251-255 and 427-430):
`data = ack.get("data")`; when it is a dict,
`data.get("token") or data.get("client_key") or data.get("auth_token")`,
kept only when truthy. -/
def ackNewToken (ack : JVal) : Option JVal :=
  match jget ack "data" with
  | some d =>
    match d with
    | JVal.obj _ =>
      let t := jOr (jOr (jget d "token") (jget d "client_key")) (jget d "auth_token")
      match t with
      | some v => if jTruthy v then some v else none
      | none => none
    | _ => none
  | none => none

/-- `ack.get("event") == "ms.channel.timeOut"` (get_tv_info.py:249). -/
def ackIsChannelTimeout (ack : JVal) : Bool :=
  match jget ack "event" with
  | some (JVal.str e) => e == "ms.channel.timeOut"
  | _ => false

/-- `app_id.split("org.tizen.tv.input-")[-1]`. -/
def inputSuffix (app_id : String) : String :=
  (app_id.splitOn "org.tizen.tv.input-").getLastD app_id

/-- Best-effort rendering of a JSON value inside an f-string
(`f"app:{app_name or app_id}"`); the exact text of non-string values plays no
role in any theorem. -/
def pyDisplay : JVal → String
  | JVal.str s => s
  | JVal.bool true => "True"
  | JVal.bool false => "False"
  | JVal.null => "None"
  | JVal.num n => toString n
  | JVal.obj _ => "<dict>"
  | JVal.arr _ => "<list>"

/-- Dict-candidate extraction in the current-input listen loop
(get_tv_info.py:308-318): with a truthy `appId`/`id`, return the input suffix
for an `org.tizen.tv.input-` app id, else `app:<name or id>`.  A truthy
non-string app id would raise `AttributeError` at `.startswith`
(`Except.error`), which the enclosing `except` turns into a `None` result for
the whole query. -/
def extractFromDictCand (cand : JVal) : Except Unit (Option String) :=
  let app_id := jOr (jget cand "appId") (jget cand "id")
  let app_name := jOr (jget cand "name") (jget cand "app_name")
  match app_id with
  | some v =>
    if jTruthy v then
      match v with
      | JVal.str s =>
        if startswith s "org.tizen.tv.input-" then Except.ok (some (inputSuffix s))
        else Except.ok (some ("app:" ++ pyDisplay ((jOr app_name (some v)).getD v)))
      | _ => Except.error ()
    else Except.ok none
  | none => Except.ok none

/-- List-candidate extraction (get_tv_info.py:321-331): the first item that is
a dict, tests as running (`running or visible or status == "running"`) and has
a truthy app id. -/
def extractFromListCand : List JVal → Except Unit (Option String)
  | [] => Except.ok none
  | item :: rest =>
    match item with
    | JVal.obj _ =>
      let app_id := jOr (jget item "appId") (jget item "id")
      let app_name := jOr (jget item "name") (jget item "app_name")
      let statusRunning :=
        match jget item "status" with
        | some (JVal.str s) => s == "running"
        | _ => false
      let running := jTruthyOpt (jget item "running") || jTruthyOpt (jget item "visible")
        || statusRunning
      if running && jTruthyOpt app_id then
        match app_id with
        | some (JVal.str s) =>
          if startswith s "org.tizen.tv.input-" then Except.ok (some (inputSuffix s))
          else Except.ok (some ("app:" ++ pyDisplay ((jOr app_name app_id).getD (JVal.str s))))
        | some _ => Except.error ()
        | none => extractFromListCand rest
      else extractFromListCand rest
    | _ => extractFromListCand rest

/-- One candidate of the current-input loop: dict and list shapes
(get_tv_info.py:307-331); anything else is skipped. -/
def extractFromCand : Option JVal → Except Unit (Option String)
  | some (JVal.obj fields) => extractFromDictCand (JVal.obj fields)
  | some (JVal.arr items) => extractFromListCand items
  | _ => Except.ok none

/-- The candidate payload locations inspected for one inbound frame
(get_tv_info.py:298-305): `data.get("data")`, `params.get("data")` when
`params` is a dict, `data.get("foregroundApp")`, `data.get("runningApp")`. -/
def frameCandidates (data : JVal) : List (Option JVal) :=
  match data with
  | JVal.obj _ =>
    let base := [jget data "data"]
    let withParams :=
      match jget data "params" with
      | some p =>
        match p with
        | JVal.obj _ => base ++ [jget p "data"]
        | _ => base
      | none => base
    withParams ++ [jget data "foregroundApp", jget data "runningApp"]
  | _ => []

/-- Try every candidate of one frame in order; the first `some` wins. -/
def extractFromFrame (frame : Option JVal) : Except Unit (Option String) :=
  match frame with
  | none => Except.ok none      -- json.loads failed: continue
  | some data =>
    let rec go : List (Option JVal) → Except Unit (Option String)
      | [] => Except.ok none
      | cand :: rest =>
        match extractFromCand cand with
        | Except.error e => Except.error e
        | Except.ok (some r) => Except.ok (some r)
        | Except.ok none => go rest
    go (frameCandidates data)

/-- The listen loop of `get_current_input_raw_ws` (get_tv_info.py:280-333):
first frame yielding an extraction wins; an uncaught exception makes the outer
`except` return `None` for the whole query. -/
def scanFramesCurrentInput : List (Option JVal) → Option String
  | [] => none
  | frame :: rest =>
    match extractFromFrame frame with
    | Except.error _ => none
    | Except.ok (some r) => some r
    | Except.ok none => scanFramesCurrentInput rest

/-- `get_current_input_raw_ws` (get_tv_info.py:204-341).  When the ack is a
dict reporting `ms.channel.timeOut`, the function returns `None` before any
candidate event is emitted (line 249-250); otherwise a truthy ack token is
handed to `on_new_token`, the six candidate events are emitted, and the listen
loop runs over `frames`. -/
def get_current_input_raw_ws (connectOk : Bool) (ack : AckRecv)
    (frames : List (Option JVal)) : WSRun (Option String) :=
  if !connectOk then ⟨[], [], none⟩
  else
    match ack with
    | AckRecv.val (JVal.obj fields) =>
      let j := JVal.obj fields
      if ackIsChannelTimeout j then ⟨[], [], none⟩
      else
        ⟨eventsCurrentInput, (ackNewToken j).toList, scanFramesCurrentInput frames⟩
    | _ => ⟨eventsCurrentInput, [], scanFramesCurrentInput frames⟩

/-- One normalized entry of the installed-app listing
(get_tv_info.py:488-490). -/
structure AppEntry where
  appId : JVal
  name : JVal
deriving Repr

/-- The list-payload locations inspected for one inbound frame of the apps
query (get_tv_info.py:468-478): the keys `data`, `apps`, `installedApps`,
`installed`, `list` holding lists, plus `params.data` when it is a list. -/
def appsFrameLists (data : JVal) : List (List JVal) :=
  match data with
  | JVal.obj _ =>
    let keyed := ["data", "apps", "installedApps", "installed", "list"].filterMap
      fun k =>
        match jget data k with
        | some (JVal.arr items) => some items
        | _ => none
    let fromParams :=
      match jget data "params" with
      | some p =>
        match p with
        | JVal.obj _ =>
          match jget p "data" with
          | some (JVal.arr items) => [items]
          | _ => []
        | _ => []
      | none => []
    keyed ++ fromParams
  | _ => []

/-- `apps_map[key] = entry` on an insertion-ordered dict with JSON-value keys
(Python dict update: replace in place or append). -/
def appsMapSet (m : List (JVal × AppEntry)) (key : JVal) (entry : AppEntry) :
    List (JVal × AppEntry) :=
  match m with
  | [] => [(key, entry)]
  | (k, v) :: rest =>
    if k == key then (k, entry) :: rest
    else (k, v) :: appsMapSet rest key entry

/-- Fold one item into the aggregation map (get_tv_info.py:481-490): skip
non-dicts and items with neither a truthy id nor a truthy name; the map key is
`app_id or name`, the entry is `{appId: app_id or key, name: name or key}`. -/
def appsAddItem (m : List (JVal × AppEntry)) (item : JVal) :
    List (JVal × AppEntry) :=
  match item with
  | JVal.obj _ =>
    let app_id := jOr (jOr (jget item "appId") (jget item "id")) (jget item "appid")
    let name := jOr (jOr (jget item "name") (jget item "app_name")) (jget item "title")
    if !jTruthyOpt app_id && !jTruthyOpt name then m
    else
      match jOr app_id name with
      | some key =>
        appsMapSet m key ⟨(jOr app_id (some key)).getD key, (jOr name (jOr app_id (some key))).getD key⟩
      | none => m
  | _ => m

/-- The listen loop of `get_available_apps_raw_ws` (get_tv_info.py:452-492):
aggregate every list payload of every parseable frame, then take the map's
values. -/
def appsFromFrames (frames : List (Option JVal)) : List AppEntry :=
  let m := frames.foldl
    (fun m frame =>
      match frame with
      | none => m
      | some data => (appsFrameLists data).foldl (fun m lst => lst.foldl appsAddItem m) m)
    []
  m.map Prod.snd

/-- `get_available_apps_raw_ws` (get_tv_info.py:386-500).  The ack handling
(lines 420-434) captures a rotated token but — unlike
`get_current_input_raw_ws` — performs no `ms.channel.timeOut` check, so the
five candidate events are emitted for every ack shape. -/
def get_available_apps_raw_ws (connectOk : Bool) (ack : AckRecv)
    (frames : List (Option JVal)) : WSRun (List AppEntry) :=
  if !connectOk then ⟨[], [], []⟩
  else
    match ack with
    | AckRecv.val (JVal.obj fields) =>
      ⟨eventsAppsList, (ackNewToken (JVal.obj fields)).toList, appsFromFrames frames⟩
    | _ => ⟨eventsAppsList, [], appsFromFrames frames⟩

/-! ## Dispatcher and orchestrator (`app/services/tv_service.py`)

The registry is the list of configured tv ids (`config.json`'s `tvs`, each
with a unique `id`); `validate_tv_exists` (tv_service.py:49-66) reduces to
membership. -/

/-- One per-device result dict of `execute_script` (timestamp omitted: it is
wall-clock noise ordered after every field any claim mentions). -/
structure Outcome where
  tv_id : String
  status : String
  output : String
  success : Bool
deriving Repr, DecidableEq

/-- An `Outcome` plus the number of `subprocess.run` invocations (the only
network/process I/O of `run_single_tv`). -/
structure RunResult where
  outcome : Outcome
  netCalls : Nat
deriving Repr, DecidableEq

/-- `run_single_tv` (tv_service.py:238-289).  A registry miss returns
`not_found` before any subprocess work (lines 242-250).  On a hit, line 253
reads the local `python_path` before its line-254 assignment (see
`runSingleBody`), raising `UnboundLocalError`, which the `except Exception` at
line 282 converts to an `error` outcome — `subprocess.run` at line 257 is
never reached. -/
def run_single_tv (registry : List String) (tv_id : String) : RunResult :=
  if !registry.contains tv_id then
    ⟨⟨tv_id, "not_found",
      "TV ID " ++ tv_id ++ " not found in configuration", false⟩, 0⟩
  else
    match runStmts (localNames runSingleBody) runSingleBody initPyState with
    | (st, some e) =>
      ⟨⟨tv_id, "error", "Error executing script: " ++ pyErrMsg e, false⟩,
        st.subprocessCalls⟩
    | (st, none) => ⟨⟨tv_id, "success", "", true⟩, st.subprocessCalls⟩

/-- The sort key relation of `results.sort(key=lambda x: x["tv_id"])`
(tv_service.py:309): compare outcomes by tv id. -/
def outcomeLE (a b : Outcome) : Prop := a.tv_id ≤ b.tv_id

instance : DecidableRel outcomeLE := fun a b => String.decidableLE a.tv_id b.tv_id

instance : IsTotal Outcome outcomeLE := ⟨fun a b => le_total a.tv_id b.tv_id⟩

instance : IsTrans Outcome outcomeLE := ⟨fun _ _ _ h₁ h₂ => le_trans h₁ h₂⟩

/-- `execute_script` (tv_service.py:215-334), result list only (summary and
elapsed time omitted).  When `concurrent` and more than one id, results are
appended in `as_completed` order — an arbitrary permutation `sched` of
`tv_ids`; otherwise in input order.  Either way the list is then sorted by tv
id (line 309); Python's stable sort is modelled by insertion sort on the same
key. -/
def execute_script (registry : List String) (tv_ids : List String)
    (concurrent : Bool) (sched : List String) : List Outcome :=
  let order := if concurrent && tv_ids.length > 1 then sched else tv_ids
  let results := order.map fun tv_id => (run_single_tv registry tv_id).outcome
  List.insertionSort outcomeLE results

/-- One `PairResponse` (models/tv.py:50-56; timestamp and optional tv_name
omitted). -/
structure PairResponse where
  status : String
  message : String
  tv_id : String
deriving Repr, DecidableEq

/-- How one `pair_single_tv` worker future ends as seen by `future.result()`
(tv_service.py:177-190): a normal return of some response, or a raised
exception. -/
inductive PairExec where
  | returns : String → String → PairExec
  | raises : String → PairExec
deriving Repr, DecidableEq

/-- The per-future collection step of `concurrent_pair_tvs`
(tv_service.py:177-190): a raise is caught and replaced by a `failed`
response for that tv id. -/
def collect_pair (exec : String → PairExec) (tv_id : String) : PairResponse :=
  match exec tv_id with
  | PairExec.returns status message => ⟨status, message, tv_id⟩
  | PairExec.raises msg =>
    ⟨"failed", "Unexpected error pairing " ++ tv_id ++ ": " ++ msg, tv_id⟩

def pairLE (a b : PairResponse) : Prop := a.tv_id ≤ b.tv_id

instance : DecidableRel pairLE := fun a b => String.decidableLE a.tv_id b.tv_id

instance : IsTotal PairResponse pairLE := ⟨fun a b => le_total a.tv_id b.tv_id⟩

instance : IsTrans PairResponse pairLE := ⟨fun _ _ _ h₁ h₂ => le_trans h₁ h₂⟩

/-- `concurrent_pair_tvs` (tv_service.py:148-213), result list only: collect
one response per future in `as_completed` order (`sched`), then sort by tv id
(line 193). -/
def concurrent_pair_tvs (exec : String → PairExec) (sched : List String) :
    List PairResponse :=
  List.insertionSort pairLE (sched.map (collect_pair exec))

/-! ## Helper lemmas -/

theorem pairwise_and_of {α : Type} {R S : α → α → Prop} :
    ∀ {l : List α}, l.Pairwise R → l.Pairwise S →
      l.Pairwise fun a b => R a b ∧ S a b
  | [], _, _ => List.Pairwise.nil
  | _ :: _, List.Pairwise.cons hR hRt, List.Pairwise.cons hS hSt =>
    List.Pairwise.cons (fun b hb => ⟨hR b hb, hS b hb⟩) (pairwise_and_of hRt hSt)

/-- A stable sort by a string key is determined by the multiset of elements
when the keys are pairwise distinct. -/
theorem insertionSort_eq_of_perm {α : Type} (key : α → String)
    (r : α → α → Prop) [DecidableRel r] [IsTotal α r] [IsTrans α r]
    (hr : ∀ a b, r a b ↔ key a ≤ key b) {l₁ l₂ : List α} (hp : l₁.Perm l₂)
    (hnd : (l₁.map key).Nodup) :
    List.insertionSort r l₁ = List.insertionSort r l₂ := by
  have hperm : (List.insertionSort r l₁).Perm (List.insertionSort r l₂) :=
    (List.perm_insertionSort r l₁).trans (hp.trans (List.perm_insertionSort r l₂).symm)
  letI : IsAntisymm α fun a b => key a < key b :=
    ⟨fun _ _ h₁ h₂ => absurd (h₁.trans h₂) (lt_irrefl _)⟩
  have sortedStrict : ∀ l : List α, (l.map key).Nodup →
      (List.insertionSort r l).Pairwise fun a b => key a < key b := by
    intro l hl
    have hnds : ((List.insertionSort r l).map key).Nodup :=
      (((List.perm_insertionSort r l).map key).nodup_iff).mpr hl
    have hne : (List.insertionSort r l).Pairwise fun a b => key a ≠ key b :=
      List.pairwise_map.mp hnds
    have hle : (List.insertionSort r l).Pairwise fun a b => key a ≤ key b :=
      (List.sorted_insertionSort r l).imp fun h => (hr _ _).mp h
    exact (pairwise_and_of hle hne).imp fun h => lt_of_le_of_ne h.1 h.2
  have hnd₂ : (l₂.map key).Nodup := ((hp.map key).nodup_iff).mp hnd
  exact List.eq_of_perm_of_sorted hperm (sortedStrict l₁ hnd) (sortedStrict l₂ hnd₂)

/-- Filtering commutes with a stable key-sort when the keys are pairwise
distinct. -/
theorem filter_insertionSort_of_nodup {α : Type} (key : α → String)
    (r : α → α → Prop) [DecidableRel r] [IsTotal α r] [IsTrans α r]
    (hr : ∀ a b, r a b ↔ key a ≤ key b) (p : α → Bool) {l : List α}
    (hnd : (l.map key).Nodup) :
    (List.insertionSort r l).filter p = List.insertionSort r (l.filter p) := by
  have hperm : ((List.insertionSort r l).filter p).Perm
      (List.insertionSort r (l.filter p)) :=
    ((List.perm_insertionSort r l).filter p).trans
      (List.perm_insertionSort r (l.filter p)).symm
  letI : IsAntisymm α fun a b => key a < key b :=
    ⟨fun _ _ h₁ h₂ => absurd (h₁.trans h₂) (lt_irrefl _)⟩
  have toStrict : ∀ {m : List α}, m.Pairwise r → (m.map key).Nodup →
      m.Pairwise fun a b => key a < key b := by
    intro m hs hm
    have hne : m.Pairwise fun a b => key a ≠ key b := List.pairwise_map.mp hm
    have hle : m.Pairwise fun a b => key a ≤ key b := hs.imp fun h => (hr _ _).mp h
    exact (pairwise_and_of hle hne).imp fun h => lt_of_le_of_ne h.1 h.2
  have hndSorted : ((List.insertionSort r l).map key).Nodup :=
    (((List.perm_insertionSort r l).map key).nodup_iff).mpr hnd
  have hs₁ : ((List.insertionSort r l).filter p).Pairwise fun a b => key a < key b := by
    have := toStrict (List.sorted_insertionSort r l) hndSorted
    exact this.sublist (List.filter_sublist _)
  have hndFilter : ((l.filter p).map key).Nodup :=
    List.Nodup.sublist ((List.filter_sublist l).map key) hnd
  have hndFilterSorted : ((List.insertionSort r (l.filter p)).map key).Nodup :=
    (((List.perm_insertionSort r (l.filter p)).map key).nodup_iff).mpr hndFilter
  have hs₂ : (List.insertionSort r (l.filter p)).Pairwise fun a b => key a < key b :=
    toStrict (List.sorted_insertionSort r (l.filter p)) hndFilterSorted
  exact List.eq_of_perm_of_sorted hperm hs₁ hs₂

/-! ## Claims -/

/-- Claim C9: `validate_key_command` accepts a command exactly when it starts
with `KEY_`; the explicit allow-list never changes the outcome, since every
listed key itself starts with `KEY_`. -/
theorem C9_validate_iff_key_prefixed (command : String) :
    validate_key_command command = startswith command "KEY_" := by
  unfold validate_key_command
  cases h : startswith command "KEY_" with
  | true => simp
  | false =>
    simp only [Bool.false_or]
    cases hc : valid_keys.contains command with
    | false => rfl
    | true =>
      exfalso
      have hmem : command ∈ valid_keys := by
        simpa using hc
      have hall : ∀ k ∈ valid_keys, startswith k "KEY_" = true := by decide
      rw [hall command hmem] at h
      exact Bool.noConfusion h

/-- Claim C10: a missing or syntactically invalid token-store file is treated
as an empty store by both `TVService._load_tokens` and
`control_tv.load_tokens`: the result is the empty mapping, returned normally
(no exception). -/
theorem C10_load_tokens_total (f : TokenFile)
    (h : f = TokenFile.missing ∨ f = TokenFile.invalidJson) :
    load_tokens f = Except.ok [] ∧ control_load_tokens f = Except.ok [] := by
  rcases h with h | h <;> subst h <;> exact ⟨rfl, rfl⟩

theorem C10_witness :
    (TokenFile.missing = TokenFile.missing ∨ TokenFile.missing = TokenFile.invalidJson)
  ∧ (load_tokens TokenFile.missing = Except.ok []
      ∧ control_load_tokens TokenFile.missing = Except.ok []) :=
  ⟨Or.inl rfl, C10_load_tokens_total TokenFile.missing (Or.inl rfl)⟩

/-- Claim C5: a device present in the registry but with no (truthy) stored
token gets `no_token` from a send-key operation, for every command and every
behaviour of the network path — in particular never `connection_failed`. -/
theorem C5_no_token_distinct (store : TokenStore) (tv_id command : String)
    (net : NetExec) (h : truthyToken store tv_id = none) :
    control_tv store tv_id command net = (false, "no_token") := by
  have he : execute_control store tv_id command net
      = NetExec.raises "no_token_available" := by
    unfold execute_control
    rw [h]
  unfold control_tv
  rw [he]
  rfl

theorem C5_witness :
    truthyToken [("living_room", ⟨none, none⟩)] "living_room" = none
  ∧ control_tv [("living_room", ⟨none, none⟩)] "living_room" "KEY_POWER" NetExec.returns
      = (false, "no_token") :=
  ⟨rfl, C5_no_token_distinct _ _ _ _ rfl⟩

/-- Claim C4: a device id absent from the registry yields a `not_found`
outcome with `success = false` and zero subprocess/network calls. -/
theorem C4_not_found_no_network (registry : List String) (tv_id : String)
    (h : registry.contains tv_id = false) :
    (run_single_tv registry tv_id).outcome.status = "not_found"
  ∧ (run_single_tv registry tv_id).outcome.success = false
  ∧ (run_single_tv registry tv_id).netCalls = 0 := by
  unfold run_single_tv
  rw [h]
  exact ⟨rfl, rfl, rfl⟩

theorem C4_witness :
    (["living_room", "bedroom"].contains "garage") = false
  ∧ ((run_single_tv ["living_room", "bedroom"] "garage").outcome.status = "not_found"
      ∧ (run_single_tv ["living_room", "bedroom"] "garage").outcome.success = false
      ∧ (run_single_tv ["living_room", "bedroom"] "garage").netCalls = 0) :=
  ⟨rfl, C4_not_found_no_network ["living_room", "bedroom"] "garage" rfl⟩

/-- Claim C2 (counterexample): with a stored token, a protocol query that
connects and returns a device payload with no `PowerState` field, and a host
that answers pings, `check_power_status` reports `unknown` (the `.get`
default, lower-cased) and sends no probe — not `standby` as the claim's
"field absent" fallback tier requires. -/
theorem C2_counterexample :
    check_power_status [("living_room", ⟨some "tok", none⟩)] "living_room"
      ⟨true, true, none⟩ true = ("unknown", 0)
  ∧ ("unknown" : String) ≠ "standby" :=
  ⟨rfl, by decide⟩

/-- Claim C2 (amended): with a truthy stored token, a connected query and a
payload containing the `device` object, the result is the lower-cased
`PowerState` field, defaulting to `unknown` when the field is absent, and no
probe is sent (provided that string is non-empty).  The ping fallback —
`standby` on success, `sleep` on failure, one probe either way — is reached
exactly when there is no truthy token, the query fails to connect, the
payload has no `device` object, or the lower-cased value is empty. -/
theorem C2_power_tiers (store : TokenStore) (tv_id : String) (q : WSQuery)
    (pingOk : Bool) :
    (∀ t, truthyToken store tv_id = some t → q.connects = true →
      q.hasDevice = true → strLower (q.powerState.getD "unknown") ≠ "" →
      check_power_status store tv_id q pingOk
        = (strLower (q.powerState.getD "unknown"), 0))
  ∧ ((truthyToken store tv_id = none ∨ q.connects = false ∨ q.hasDevice = false
        ∨ strLower (q.powerState.getD "unknown") = "") →
      check_power_status store tv_id q pingOk
        = ((if pingOk then "standby" else "sleep"), 1)) := by
  constructor
  · intro t ht hc hd hne
    unfold check_power_status get_websocket_power_state get_power_state
    rw [ht, hc, hd]
    have hb : (strLower (q.powerState.getD "unknown") != "") = true := by
      simpa using hne
    simp [hb]
  · intro h
    unfold check_power_status get_websocket_power_state get_power_state
    rcases h with ht | hc | hd | he
    · rw [ht]
      cases pingOk <;> rfl
    · cases htok : truthyToken store tv_id with
      | none => cases pingOk <;> rfl
      | some t =>
        rw [hc]
        cases pingOk <;> rfl
    · cases htok : truthyToken store tv_id with
      | none => cases pingOk <;> rfl
      | some t =>
        cases hcon : q.connects with
        | false => cases pingOk <;> rfl
        | true =>
          rw [hd]
          cases pingOk <;> rfl
    · cases htok : truthyToken store tv_id with
      | none => cases pingOk <;> rfl
      | some t =>
        cases hcon : q.connects with
        | false => cases pingOk <;> rfl
        | true =>
          cases hdev : q.hasDevice with
          | false => cases pingOk <;> rfl
          | true =>
            have hb : (strLower (q.powerState.getD "unknown") != "") = false := by
              simp [he]
            simp [hb]
            cases pingOk <;> rfl

theorem C2_witness :
    check_power_status [("living_room", ⟨some "tok", none⟩)] "living_room"
      ⟨true, true, some "On"⟩ true = ("on", 0)
  ∧ check_power_status [] "living_room" ⟨true, true, some "On"⟩ true
      = ("standby", 1)
  ∧ check_power_status [] "living_room" ⟨true, true, some "On"⟩ false
      = ("sleep", 1) := by
  refine ⟨?_, ?_, ?_⟩
  · exact (C2_power_tiers [("living_room", ⟨some "tok", none⟩)] "living_room"
      ⟨true, true, some "On"⟩ true).1 "tok" rfl rfl rfl (by decide)
  · exact (C2_power_tiers [] "living_room" ⟨true, true, some "On"⟩ true).2
      (Or.inl rfl)
  · exact (C2_power_tiers [] "living_room" ⟨true, true, some "On"⟩ false).2
      (Or.inl rfl)

/-- Claim C6 (counterexample): the first-pairing write path `save_token`
persists with a single direct write of the store file — not
write-temp-then-replace. -/
theorem C6_counterexample :
    atomicForStore (save_token [] "living_room" "tok" "2024-01-01 00:00:00").2
      = false := by
  rfl

/-- Claim C6 (amended): only `persist_token_update`'s non-raising path is
temp-then-replace; `save_token` (first pairing) always writes the store file
directly, and `persist_token_update` falls back to a direct write when opening
the temp file or replacing raises. -/
theorem C6_write_paths (store : TokenStore) (tv_id : String) :
    (∀ new_token,
      atomicForStore
        (persist_token_update store tv_id new_token PersistFailure.noFailure).2 = true)
  ∧ (∀ token paired_at,
      atomicForStore (save_token store tv_id token paired_at).2 = false)
  ∧ (∀ new_token,
      atomicForStore
        (persist_token_update store tv_id new_token PersistFailure.tmpOpenRaises).2 = false)
  ∧ (∀ new_token,
      atomicForStore
        (persist_token_update store tv_id new_token PersistFailure.replaceRaises).2 = false) :=
  ⟨fun _ => rfl, fun _ _ => rfl, fun _ => rfl, fun _ => rfl⟩

/-- Claim C3: the comprehensive info query can never persist a rotated token.
Executing the body of `get_comprehensive_tv_info` under Python's local-name
rule raises `UnboundLocalError` for `on_new_token` at the app-listing call
(get_tv_info.py:79), before any statement that could reach
`persist_token_update` (`persistCalls = 0`); consequently the token store
after the call always equals the store before it, whatever token the
handshake ack carried. -/
theorem C3_rotated_token_never_persisted :
    (runStmts (localNames infoBody) infoBody initPyState).2
      = some (PyError.unboundLocal "on_new_token")
  ∧ (runStmts (localNames infoBody) infoBody initPyState).1.persistCalls = 0
  ∧ ∀ store tv_id online openFail ackTokenField,
      (get_comprehensive_tv_info store tv_id online openFail ackTokenField).2
        = store := by
  refine ⟨by decide, by decide, ?_⟩
  intro store tv_id online openFail ackTokenField
  unfold get_comprehensive_tv_info
  cases truthyToken store tv_id with
  | none => rfl
  | some token =>
    cases online with
    | false => rfl
    | true =>
      cases openFail with
      | some e => rfl
      | none => rfl

/-- Claim C8 (counterexample): an acknowledgement frame reporting
`ms.channel.timeOut` does not stop the installed-app-listing query: unlike the
current-input query, `get_available_apps_raw_ws` performs no channel-timeout
check and emits all five candidate query events on the socket. -/
theorem C8_counterexample :
    (get_available_apps_raw_ws true
      (AckRecv.val (JVal.obj [("event", JVal.str "ms.channel.timeOut")])) []).emitted
      = eventsAppsList
  ∧ eventsAppsList ≠ [] :=
  ⟨rfl, by decide⟩

/-- Claim C8 (amended): on a channel-timeout ack the current-input query
returns its not-available result (`none`) without emitting any candidate
event and without invoking the token callback; the installed-app-listing
query, by contrast, emits its candidate events for every dict-shaped ack,
channel-timeout included. -/
theorem C8_channel_timeout_handling :
    (∀ fields frames, ackIsChannelTimeout (JVal.obj fields) = true →
      get_current_input_raw_ws true (AckRecv.val (JVal.obj fields)) frames
        = ⟨[], [], none⟩)
  ∧ (∀ fields frames,
      (get_available_apps_raw_ws true (AckRecv.val (JVal.obj fields)) frames).emitted
        = eventsAppsList) := by
  constructor
  · intro fields frames h
    simp [get_current_input_raw_ws, h]
  · intro fields frames
    rfl

theorem C8_witness :
    ackIsChannelTimeout (JVal.obj [("event", JVal.str "ms.channel.timeOut")]) = true
  ∧ get_current_input_raw_ws true
      (AckRecv.val (JVal.obj [("event", JVal.str "ms.channel.timeOut")])) []
      = ⟨[], [], none⟩ :=
  ⟨rfl, (C8_channel_timeout_handling).1 [("event", JVal.str "ms.channel.timeOut")] [] rfl⟩

theorem run_single_tv_key (registry : List String) (tv_id : String) :
    (run_single_tv registry tv_id).outcome.tv_id = tv_id := by
  unfold run_single_tv
  cases registry.contains tv_id <;> rfl

/-- Whatever the completion order, `execute_script` produces the sort of the
per-device outcomes taken in registry-request order. -/
theorem execute_script_canonical (registry : List String)
    (tv_ids sched : List String) (c : Bool) (hnd : tv_ids.Nodup)
    (hp : sched.Perm tv_ids) :
    execute_script registry tv_ids c sched
      = List.insertionSort outcomeLE
          (tv_ids.map fun id => (run_single_tv registry id).outcome) := by
  unfold execute_script
  by_cases hc : (c && decide (tv_ids.length > 1)) = true
  · rw [if_pos hc]
    apply insertionSort_eq_of_perm Outcome.tv_id outcomeLE (fun _ _ => Iff.rfl)
    · exact hp.map _
    · rw [List.map_map]
      have hcomp :
          (Outcome.tv_id ∘ fun id => (run_single_tv registry id).outcome) = id :=
        funext fun x => run_single_tv_key registry x
      rw [hcomp, List.map_id]
      exact hp.nodup_iff.mpr hnd
  · rw [if_neg hc]

/-- Claim C1: for a non-empty duplicate-free request list, the multi-device
executor returns exactly one outcome per requested id (the output keys are a
permutation of the request, hence each id once), sorted by tv id, and the
result is the same for every completion order (`sched`, `sched'`) and every
reordering of the input list (`tv_ids'`). -/
theorem C1_run_many_one_sorted_outcome_per_id (registry : List String)
    (tv_ids tv_ids' sched sched' : List String) (c : Bool)
    (hne : tv_ids ≠ []) (hnd : tv_ids.Nodup) (hp : sched.Perm tv_ids)
    (hpi : tv_ids'.Perm tv_ids) (hp' : sched'.Perm tv_ids') :
    ((execute_script registry tv_ids c sched).map Outcome.tv_id).Perm tv_ids
  ∧ List.Sorted outcomeLE (execute_script registry tv_ids c sched)
  ∧ execute_script registry tv_ids' c sched' = execute_script registry tv_ids c sched := by
  have hcomp :
      (Outcome.tv_id ∘ fun id => (run_single_tv registry id).outcome) = id :=
    funext fun x => run_single_tv_key registry x
  have hcan := execute_script_canonical registry tv_ids sched c hnd hp
  have hnd' : tv_ids'.Nodup := hpi.nodup_iff.mpr hnd
  have hcan' := execute_script_canonical registry tv_ids' sched' c hnd' hp'
  refine ⟨?_, ?_, ?_⟩
  · rw [hcan]
    have h₁ := (List.perm_insertionSort outcomeLE
      (tv_ids.map fun id => (run_single_tv registry id).outcome)).map Outcome.tv_id
    rwa [List.map_map, hcomp, List.map_id] at h₁
  · rw [hcan]
    exact List.sorted_insertionSort outcomeLE _
  · rw [hcan, hcan']
    apply insertionSort_eq_of_perm Outcome.tv_id outcomeLE (fun _ _ => Iff.rfl)
    · exact hpi.map _
    · rw [List.map_map, hcomp, List.map_id]
      exact hnd'

theorem C1_witness :
    (["bedroom", "living_room"] : List String) ≠ []
  ∧ (["bedroom", "living_room"] : List String).Nodup
  ∧ (((execute_script ["living_room"] ["bedroom", "living_room"] true
        ["living_room", "bedroom"]).map Outcome.tv_id).Perm ["bedroom", "living_room"]
    ∧ List.Sorted outcomeLE (execute_script ["living_room"]
        ["bedroom", "living_room"] true ["living_room", "bedroom"])
    ∧ execute_script ["living_room"] ["living_room", "bedroom"] true
        ["bedroom", "living_room"]
      = execute_script ["living_room"] ["bedroom", "living_room"] true
        ["living_room", "bedroom"]) :=
  ⟨by decide, by decide,
    C1_run_many_one_sorted_outcome_per_id ["living_room"]
      ["bedroom", "living_room"] ["living_room", "bedroom"]
      ["living_room", "bedroom"] ["bedroom", "living_room"] true
      (by decide) (by decide) (by decide) (by decide) (by decide)⟩

theorem collect_pair_key (exec : String → PairExec) (tv_id : String) :
    (collect_pair exec tv_id).tv_id = tv_id := by
  unfold collect_pair
  cases exec tv_id <;> rfl

/-- Claim C7 (counterexample): in the concurrent pairing path an exception
raised in one device's worker is converted into a response with status
`failed`, not `error` as the claim states for both paths. -/
theorem C7_counterexample :
    (concurrent_pair_tvs (fun _ => PairExec.raises "boom") ["a"]).map
        PairResponse.status = ["failed"]
  ∧ ("failed" : String) ≠ "error" :=
  ⟨rfl, by decide⟩

/-- Claim C7 (amended): exceptions are caught at the per-device boundary in
both multi-device paths and converted into that device's result — with status
`error` in the generic script executor (whose per-device body always raises
`UnboundLocalError` for a registered id, see `runSingleBody`) and status
`failed` in the concurrent pairing path; and changing what one device's
worker does (for example making it raise) leaves every sibling device's
response unchanged. -/
theorem C7_per_device_containment :
    (∀ registry tv_id, registry.contains tv_id = true →
      (run_single_tv registry tv_id).outcome.status = "error"
        ∧ (run_single_tv registry tv_id).outcome.success = false)
  ∧ (∀ exec tv_id msg, exec tv_id = PairExec.raises msg →
      (collect_pair exec tv_id).status = "failed")
  ∧ (∀ exec exec' : String → PairExec, ∀ sched id₀, sched.Nodup →
      (∀ id, id ≠ id₀ → exec id = exec' id) →
      (concurrent_pair_tvs exec sched).filter (fun r => r.tv_id != id₀)
        = (concurrent_pair_tvs exec' sched).filter (fun r => r.tv_id != id₀)) := by
  refine ⟨?_, ?_, ?_⟩
  · intro registry tv_id h
    unfold run_single_tv
    rw [h]
    exact ⟨rfl, rfl⟩
  · intro exec tv_id msg h
    unfold collect_pair
    rw [h]
  · intro exec exec' sched id₀ hnd hagree
    have keyEq : ∀ w : String → PairResponse, (∀ x, (w x).tv_id = x) →
        ((sched.map w).map PairResponse.tv_id).Nodup := by
      intro w hw
      rw [List.map_map]
      have : (PairResponse.tv_id ∘ w) = id := funext fun x => hw x
      rwa [this, List.map_id]
    have hfilter : ∀ w : String → PairResponse, (∀ x, (w x).tv_id = x) →
        ((sched.map w).filter fun r => r.tv_id != id₀)
          = (sched.filter fun x => x != id₀).map w := by
      intro w hw
      rw [List.filter_map]
      congr 1
      apply List.filter_congr
      intro x _
      simp [Function.comp, hw x]
    unfold concurrent_pair_tvs
    rw [filter_insertionSort_of_nodup PairResponse.tv_id pairLE
        (fun _ _ => Iff.rfl) _ (keyEq _ (collect_pair_key exec)),
      filter_insertionSort_of_nodup PairResponse.tv_id pairLE
        (fun _ _ => Iff.rfl) _ (keyEq _ (collect_pair_key exec')),
      hfilter _ (collect_pair_key exec), hfilter _ (collect_pair_key exec')]
    congr 1
    apply List.map_congr_left
    intro x hx
    have hxne : x ≠ id₀ := by
      have := (List.mem_filter.mp hx).2
      simpa using this
    unfold collect_pair
    rw [hagree x hxne]

theorem C7_witness :
    (["bedroom"] : List String).contains "bedroom" = true
  ∧ (run_single_tv ["bedroom"] "bedroom").outcome.status = "error"
  ∧ (collect_pair (fun _ => PairExec.raises "boom") "bedroom").status = "failed"
  ∧ (concurrent_pair_tvs
        (fun id => if id == "a" then PairExec.raises "boom"
                   else PairExec.returns "success" "ok") ["a", "b"]).filter
        (fun r => r.tv_id != "a")
      = (concurrent_pair_tvs (fun _ => PairExec.returns "success" "ok") ["a", "b"]).filter
        (fun r => r.tv_id != "a") := by
  refine ⟨rfl, (C7_per_device_containment.1 ["bedroom"] "bedroom" rfl).1,
    C7_per_device_containment.2.1 (fun _ => PairExec.raises "boom") "bedroom" "boom" rfl,
    ?_⟩
  exact C7_per_device_containment.2.2 _ _ ["a", "b"] "a" (by decide)
    (fun id hid => by simp [hid])

end Samsung
